import Mathlib

/-!
Shallow embedding of the fade-playwright end-to-end test suite.

The repository is a Playwright page-object test suite: `FormLocators`
(declarative selector definitions), `FormActions` (wrapper methods around
locator interactions), `TestData` (fixture generators) and `form.spec.ts`
(test cases).  Two generations of the page objects coexist in the sources:
the current registration-form pair (namespace root below) and the earlier
contact-form pair with phone/message/checkbox helpers (namespace `Legacy`
below), which the spec file imports.

Playwright interactions are modelled as a trace of primitive steps.  An
action is a function from an environment (assigning to each primitive step
either success or a delegate error message) to an outcome together with the
list of steps it attempted, in order.  `try/catch` blocks become the
`Act.tryCatch` combinator, and the DOM effect of a trace is given by
`applyStep`/`applyTrace` on a `World` of field values and checkbox states.
-/

namespace FadePlaywright

/-- Primitive Playwright interactions appearing in the suite.  Each carries
the (symbolic) locator it acts on and the arguments the source passes. -/
inductive PwStep where
  | assertVisible (loc : String) (timeout : Nat)
  | assertHidden (loc : String)
  | assertEnabled (loc : String)
  | assertValue (loc : String) (v : String)
  | assertChecked (loc : String) (b : Bool)
  | clear (loc : String)
  | fill (loc : String) (v : String)
  | click (loc : String)
  | clickFilter (loc : String) (hasText : String)
  | setChecked (loc : String) (b : Bool)
  | check (loc : String)
  | selectOption (loc : String) (v : String)
  | isVisibleProbe (loc : String)
  | goto (url : String)
  | waitLoadState (state : String) (timeout : Nat)
deriving DecidableEq, Repr

/-- The locator a step acts on; page-level steps report the page itself. -/
def PwStep.target : PwStep → String
  | .assertVisible l _ => l
  | .assertHidden l => l
  | .assertEnabled l => l
  | .assertValue l _ => l
  | .assertChecked l _ => l
  | .clear l => l
  | .fill l _ => l
  | .click l => l
  | .clickFilter l _ => l
  | .setChecked l _ => l
  | .check l => l
  | .selectOption l _ => l
  | .isVisibleProbe l => l
  | .goto _ => "page"
  | .waitLoadState _ _ => "page"

/-- An environment decides, for each primitive step, whether the automation
library succeeds (`none`) or raises an error with the given message. -/
abbrev Env := PwStep → Option String

/-- Result of running an action: the raised error (if any) together with the
trace of steps attempted, in order, including a failing final step. -/
abbrev ActResult := Option String × List PwStep

/-- An action of the suite: straight-line Playwright calls with exceptions. -/
abbrev Act := Env → ActResult

/-- Run a single primitive step. -/
def Act.step (s : PwStep) : Act := fun env => (env s, [s])

/-- Sequential composition: the second action runs only if the first one
returned normally; traces concatenate. -/
def Act.seq (a b : Act) : Act := fun env =>
  match a env with
  | (some e, tr) => (some e, tr)
  | (none, tr) => ((b env).1, tr ++ (b env).2)

/-- The empty action. -/
def Act.skip : Act := fun _ => (none, [])

/-- A `try { a } catch (e) { ... }` block: on failure the handler decides
the resulting error (rethrow a wrapped message, or swallow). -/
def Act.tryCatch (a : Act) (h : String → Option String) : Act := fun env =>
  match a env with
  | (some e, tr) => (h e, tr)
  | (none, tr) => (none, tr)

/-- Run a list of primitive steps in order, stopping at the first failure. -/
def Act.runList : List PwStep → Act
  | [] => Act.skip
  | s :: rest => Act.seq (Act.step s) (Act.runList rest)

/-- Run an action for each element of a list, in order. -/
def Act.forEach (xs : List α) (f : α → Act) : Act :=
  xs.foldr (fun x acc => Act.seq (f x) acc) Act.skip

/-- First error an environment assigns along a list of steps. -/
def firstErr (env : Env) : List PwStep → Option String
  | [] => none
  | s :: rest =>
    match env s with
    | some e => some e
    | none => firstErr env rest

theorem seq_apply_ok (a b : Act) (env : Env) (tr : List PwStep)
    (h : a env = (none, tr)) :
    Act.seq a b env = ((b env).1, tr ++ (b env).2) := by
  simp [Act.seq, h]

theorem seq_apply_err (a b : Act) (env : Env) (e : String) (tr : List PwStep)
    (h : a env = (some e, tr)) :
    Act.seq a b env = (some e, tr) := by
  simp [Act.seq, h]

theorem runList_fst (env : Env) (L : List PwStep) :
    (Act.runList L env).1 = firstErr env L := by
  induction L with
  | nil => rfl
  | cons s rest ih =>
    cases h : env s with
    | some e =>
      have hs : Act.step s env = (some e, [s]) := by simp [Act.step, h]
      simp [Act.runList, seq_apply_err _ _ _ _ _ hs, firstErr, h]
    | none =>
      have hs : Act.step s env = (none, [s]) := by simp [Act.step, h]
      simp [Act.runList, seq_apply_ok _ _ _ _ hs, firstErr, h, ih]

theorem firstErr_eq_none (env : Env) (L : List PwStep) :
    firstErr env L = none ↔ ∀ s ∈ L, env s = none := by
  induction L with
  | nil => simp [firstErr]
  | cons s rest ih =>
    cases h : env s with
    | some e => simp [firstErr, h]
    | none => simp [firstErr, h, ih]

theorem runList_trace_ok (env : Env) (L : List PwStep)
    (h : ∀ s ∈ L, env s = none) : (Act.runList L env).2 = L := by
  induction L with
  | nil => rfl
  | cons s rest ih =>
    have hs0 : env s = none := h s (by simp)
    have hs : Act.step s env = (none, [s]) := by simp [Act.step, hs0]
    have := ih (fun t ht => h t (by simp [ht]))
    simp [Act.runList, seq_apply_ok _ _ _ _ hs, this]

theorem runList_trace_mem (env : Env) (L : List PwStep) (s : PwStep)
    (h : s ∈ (Act.runList L env).2) : s ∈ L := by
  induction L with
  | nil => simp [Act.runList, Act.skip] at h
  | cons a rest ih =>
    cases ha : env a with
    | some e =>
      have hs : Act.step a env = (some e, [a]) := by simp [Act.step, ha]
      rw [Act.runList, seq_apply_err _ _ _ _ _ hs] at h
      simp at h
      simp [h]
    | none =>
      have hs : Act.step a env = (none, [a]) := by simp [Act.step, ha]
      rw [Act.runList, seq_apply_ok _ _ _ _ hs] at h
      simp at h
      rcases h with h | h
      · simp [h]
      · simp [ih h]

theorem tryCatch_fst (a : Act) (h : String → Option String) (env : Env) :
    (Act.tryCatch a h env).1 =
      match (a env).1 with
      | some e => h e
      | none => none := by
  rcases ha : a env with ⟨r, tr⟩
  cases r <;> simp [Act.tryCatch, ha]

theorem tryCatch_snd (a : Act) (h : String → Option String) (env : Env) :
    (Act.tryCatch a h env).2 = (a env).2 := by
  rcases ha : a env with ⟨r, tr⟩
  cases r <;> simp [Act.tryCatch, ha]

theorem seq_trace_mem (a b : Act) (env : Env) (s : PwStep)
    (h : s ∈ (Act.seq a b env).2) : s ∈ (a env).2 ∨ s ∈ (b env).2 := by
  rcases ha : a env with ⟨r, tr⟩
  cases r with
  | some e => rw [seq_apply_err _ _ _ _ _ ha] at h; left; exact h
  | none =>
    rw [seq_apply_ok _ _ _ _ ha] at h
    simp at h
    rcases h with h | h
    · left; exact h
    · right; exact h

/-! ## Locator model (current `FormLocators.ts`, registration form)

A Playwright locator is a declarative query bound to a page; `page.locator(s)`
with a comma-separated CSS string is a query whose alternatives are the
comma-separated selectors, `page.getByRole`/`page.getByText` are single
role/text queries, and `.filter({hasText}).nth(n)` refines a base query. -/

/-- Declarative element query, as built by the locator getters. -/
inductive LocQuery where
  | css (alternatives : List String)
  | role (r : String) (accName : Option String)
  | text (t : String)
  | filteredNth (base : LocQuery) (hasText : String) (n : Nat)
deriving DecidableEq, Repr

/-- Split a character list at commas. -/
def splitOnComma : List Char → List (List Char)
  | [] => [[]]
  | c :: rest =>
    if c = ',' then [] :: splitOnComma rest
    else
      match splitOnComma rest with
      | [] => [[c]]
      | h :: t => (c :: h) :: t

/-- Drop the single space following a comma in a selector list. -/
def trimLeadingSpace : List Char → List Char
  | ' ' :: rest => rest
  | l => l

/-- The comma-separated alternatives of a CSS selector string. -/
def cssAlternatives (s : String) : List String :=
  (splitOnComma s.data).map (fun l => String.mk (trimLeadingSpace l))

/-- `page.locator(s)`: the comma-separated selector string `s` is one query
whose alternatives are its comma-separated parts. -/
def locatorOf (s : String) : LocQuery := .css (cssAlternatives s)

/-- Number of alternative selectors a query falls back across. -/
def LocQuery.fallbackCount : LocQuery → Nat
  | .css alternatives => alternatives.length
  | .role _ _ => 1
  | .text _ => 1
  | .filteredNth _ _ _ => 1

/-- Opaque handle to a live browser page. -/
structure Page where
  id : Nat
deriving DecidableEq, Repr

/-- A locator: a declarative query re-evaluated against a page on each use. -/
structure Locator where
  page : Page
  query : LocQuery
deriving DecidableEq, Repr

/-- Query of the `formContainer` getter. -/
def formContainerQuery : LocQuery :=
  locatorOf "form, [role=\"form\"], .form-container, .contact-form"

/-- Query of the `formTitle` getter. -/
def formTitleQuery : LocQuery := locatorOf "h2"

/-- Query of the `nameInput` getter: `page.getByRole('textbox', { name: 'Name' })`. -/
def nameInputQuery : LocQuery := .role "textbox" (some "Name")

/-- Query of the `emailInput` getter. -/
def emailInputQuery : LocQuery := .role "textbox" (some "Email")

/-- Query of the `countryDropdown` getter: `page.locator('svg')`. -/
def countryDropdownQuery : LocQuery := locatorOf "svg"

/-- Query of the `countryOption` getter: `page.getByRole('option')`. -/
def countryOptionQuery : LocQuery := .role "option" none

/-- Query of the `countryField` getter. -/
def countryFieldQuery : LocQuery :=
  .filteredNth (locatorOf "div") "^Country$" 2

/-- Query of the `registerButton` getter. -/
def registerButtonQuery : LocQuery := .role "button" (some "Register")

/-- Query of the `nameErrorMessage` getter. -/
def nameErrorMessageQuery : LocQuery := .text "Name is required."

/-- Query of the `emailErrorMessage` getter. -/
def emailErrorMessageQuery : LocQuery := .text "Enter a valid email address."

/-- Query of the `countryErrorMessage` getter. -/
def countryErrorMessageQuery : LocQuery := .text "Country is required."

/-- Query of the `successMessage` getter. -/
def successMessageQuery : LocQuery := .text "Your registration has been saved."

/-- The per-field and per-message locator queries of the current
`FormLocators` (everything except the form container and title, the
registration-results table helpers, and the page itself). -/
def fieldMessageQueries : List LocQuery :=
  [nameInputQuery, emailInputQuery, countryDropdownQuery, countryOptionQuery,
   countryFieldQuery, registerButtonQuery, nameErrorMessageQuery,
   emailErrorMessageQuery, countryErrorMessageQuery, successMessageQuery]

/-- `FormLocators`: stores only the page reference; every locator property
is a getter constructing a fresh query from that page. -/
structure FormLocators where
  page : Page
deriving DecidableEq, Repr

def FormLocators.formContainer (fl : FormLocators) : Locator :=
  ⟨fl.page, formContainerQuery⟩

def FormLocators.formTitle (fl : FormLocators) : Locator :=
  ⟨fl.page, formTitleQuery⟩

def FormLocators.nameInput (fl : FormLocators) : Locator :=
  ⟨fl.page, nameInputQuery⟩

def FormLocators.emailInput (fl : FormLocators) : Locator :=
  ⟨fl.page, emailInputQuery⟩

def FormLocators.countryDropdown (fl : FormLocators) : Locator :=
  ⟨fl.page, countryDropdownQuery⟩

def FormLocators.countryOption (fl : FormLocators) : Locator :=
  ⟨fl.page, countryOptionQuery⟩

def FormLocators.countryField (fl : FormLocators) : Locator :=
  ⟨fl.page, countryFieldQuery⟩

def FormLocators.registerButton (fl : FormLocators) : Locator :=
  ⟨fl.page, registerButtonQuery⟩

def FormLocators.nameErrorMessage (fl : FormLocators) : Locator :=
  ⟨fl.page, nameErrorMessageQuery⟩

def FormLocators.emailErrorMessage (fl : FormLocators) : Locator :=
  ⟨fl.page, emailErrorMessageQuery⟩

def FormLocators.countryErrorMessage (fl : FormLocators) : Locator :=
  ⟨fl.page, countryErrorMessageQuery⟩

def FormLocators.successMessage (fl : FormLocators) : Locator :=
  ⟨fl.page, successMessageQuery⟩

/-- All locator getters of the current `FormLocators`, listed. -/
def FormLocators.allLocators (fl : FormLocators) : List Locator :=
  [fl.formContainer, fl.formTitle, fl.nameInput, fl.emailInput,
   fl.countryDropdown, fl.countryOption, fl.countryField, fl.registerButton,
   fl.nameErrorMessage, fl.emailErrorMessage, fl.countryErrorMessage,
   fl.successMessage]

/-- `FormActions`: stores the page and a `FormLocators` built from it. -/
structure FormActions where
  page : Page
  locators : FormLocators
deriving DecidableEq, Repr

/-- The `FormActions` constructor:
`this.page = page; this.locators = new FormLocators(page)`. -/
def FormActions.create (p : Page) : FormActions := ⟨p, ⟨p⟩⟩

/-! ## Current `FormActions.ts` action methods

In traces, locators are referred to by the name of the `FormLocators`
getter the source reads. -/

/-- The steps `fillField` performs, in source order: visibility assertion
with a 5000 ms timeout, `clear`, `fill`, then `toHaveValue`. -/
def fillFieldSteps (loc v : String) : List PwStep :=
  [.assertVisible loc 5000, .clear loc, .fill loc v, .assertValue loc v]

/-- The wrapped error message `fillField` throws on any failure. -/
def wrapFillError (fieldName v e : String) : String :=
  "Failed to fill " ++ fieldName ++ " field with value \"" ++ v ++ "\": " ++ e

/-- `fillField(locator, value, fieldName)`: the try-block runs the four
steps; the catch rethrows a single wrapped error. -/
def fillField (loc v fieldName : String) : Act :=
  Act.tryCatch (Act.runList (fillFieldSteps loc v))
    (fun e => some (wrapFillError fieldName v e))

/-- `fillName`. -/
def fillName (name : String) : Act := fillField "nameInput" name "name"

/-- `fillEmail`. -/
def fillEmail (email : String) : Act := fillField "emailInput" email "email"

/-- The steps `selectCountry` performs: visibility assertion on the dropdown,
click it, then click the option filtered by the country text.  The source
has no try/catch around them. -/
def selectCountrySteps (country : String) : List PwStep :=
  [.assertVisible "countryDropdown" 5000, .click "countryDropdown",
   .clickFilter "countryOption" country]

/-- `selectCountry(country)`: runs its steps with no error wrapping. -/
def selectCountry (country : String) : Act :=
  Act.runList (selectCountrySteps country)

/-- The steps `submitForm` performs: visibility assertion on the register
button (5000 ms), enabled assertion, click, then `waitForLoadState
('networkidle', { timeout: 10000 })`. -/
def submitFormSteps : List PwStep :=
  [.assertVisible "registerButton" 5000, .assertEnabled "registerButton",
   .click "registerButton", .waitLoadState "networkidle" 10000]

/-- `submitForm()`: the try-block runs the four steps; the catch rethrows
`Failed to submit form: ...`. -/
def submitForm : Act :=
  Act.tryCatch (Act.runList submitFormSteps)
    (fun e => some ("Failed to submit form: " ++ e))

/-- JavaScript truthiness of an optional string field: `undefined` and the
empty string are falsy. -/
def truthy : Option String → Bool
  | none => false
  | some s => !(s == "")

/-- `if (formData.x) { await act(formData.x) }` for a string field. -/
def optFill (v : Option String) (act : String → Act) : Act :=
  match v with
  | none => Act.skip
  | some s => if s == "" then Act.skip else act s

/-- `if (formData.x !== undefined) { await act(formData.x) }` for a boolean
flag. -/
def optBool (v : Option Bool) (act : Bool → Act) : Act :=
  match v with
  | none => Act.skip
  | some b => act b

/-- The argument record of the current `fillCompleteForm`. -/
structure FormData3 where
  name : Option String
  email : Option String
  country : Option String
deriving DecidableEq, Repr

/-- Current `fillCompleteForm(formData)`: fill name, email, country, each
guarded by truthiness of the corresponding field. -/
def fillCompleteForm (d : FormData3) : Act :=
  Act.seq (optFill d.name fillName)
    (Act.seq (optFill d.email fillEmail)
      (optFill d.country selectCountry))

/-- Current `clearAllFields()`: for each of the name and email inputs, try
`clear()` and swallow any error, continuing with the next field. -/
def clearAllFields : Act :=
  Act.forEach ["nameInput", "emailInput"]
    (fun f => Act.tryCatch (Act.step (.clear f)) (fun _ => none))

/-! ## Test data (`TestData.ts`)

Generators are modelled as functions of the ambient randomness/clock state
at call time (`RandomEnv`); the static generators ignore it. -/

/-- The `FormTestData` record: optional string/boolean fields. -/
structure FormTestData where
  name : Option String := none
  email : Option String := none
  phone : Option String := none
  message : Option String := none
  company : Option String := none
  role : Option String := none
  agreeToTerms : Option Bool := none
  subscribeNewsletter : Option Bool := none
  contactMethod : Option String := none
deriving DecidableEq, Repr

/-- Ambient state a generator call can observe: the `Math.floor(Math.random()
* 5)` index draw, `Date.now()`, and the two `Math.random() > 0.5` coins. -/
structure RandomEnv where
  rand : Fin 5
  nowMs : Nat
  coin1 : Bool
  coin2 : Bool

/-- `TestDataGenerator.getValidFormData()`. -/
def getValidFormData (_ : RandomEnv) : FormTestData :=
  { name := some "John Doe"
    email := some "john.doe@example.com"
    phone := some "+44 20 7946 0958"
    message := some "This is a test message for the contact form validation."
    company := some "Test Company Ltd"
    role := some "developer"
    agreeToTerms := some true
    subscribeNewsletter := some false
    contactMethod := some "email" }

/-- `TestDataGenerator.getMinimalFormData()`. -/
def getMinimalFormData (_ : RandomEnv) : FormTestData :=
  { name := some "Jane Smith"
    email := some "jane.smith@test.com"
    message := some "Minimal test message"
    agreeToTerms := some true }

/-- `TestDataGenerator.getInvalidEmailData()`:
`{ ...this.getValidFormData(), email: 'invalid-email-format' }`. -/
def getInvalidEmailData (r : RandomEnv) : FormTestData :=
  { getValidFormData r with email := some "invalid-email-format" }

/-- `TestDataGenerator.getInvalidPhoneData()`. -/
def getInvalidPhoneData (r : RandomEnv) : FormTestData :=
  { getValidFormData r with phone := some "abc123" }

/-- `TestDataGenerator.getDataWithoutAgreement()`. -/
def getDataWithoutAgreement (r : RandomEnv) : FormTestData :=
  { getValidFormData r with agreeToTerms := some false }

/-- `TestDataGenerator.getEmptyFormData()`. -/
def getEmptyFormData (_ : RandomEnv) : FormTestData :=
  { name := some ""
    email := some ""
    phone := some ""
    message := some ""
    company := some ""
    agreeToTerms := some false
    subscribeNewsletter := some false }

/-- Name pool of `getRandomValidData`. -/
def randomNames : List String :=
  ["Alice Johnson", "Bob Wilson", "Carol Davis", "David Brown", "Emma Wilson"]

/-- Company pool of `getRandomValidData`. -/
def randomCompanies : List String :=
  ["Tech Solutions", "Digital Innovations", "Creative Agency",
   "Consulting Group", "Development House"]

/-- Role pool of `getRandomValidData`. -/
def randomRoles : List String :=
  ["developer", "manager", "consultant", "analyst", "designer"]

/-- Message pool of `getRandomValidData`. -/
def randomMessages : List String :=
  ["I would like to inquire about your services.",
   "Please contact me regarding your products.",
   "I am interested in a partnership opportunity.",
   "Could you provide more information about pricing?",
   "I need assistance with technical implementation."]

/-- `TestDataGenerator.getRandomValidData()`: the name, message, company and
role come from the pools at the random index, the email embeds `Date.now()`,
and the newsletter flag and contact method come from the two coins. -/
def getRandomValidData (r : RandomEnv) : FormTestData :=
  { name := some (randomNames.getD r.rand.val "")
    email := some ("test" ++ toString r.nowMs ++ "@example.com")
    phone := some "+44 20 7946 0958"
    message := some (randomMessages.getD r.rand.val "")
    company := some (randomCompanies.getD r.rand.val "")
    role := some (randomRoles.getD r.rand.val "")
    agreeToTerms := some true
    subscribeNewsletter := some r.coin1
    contactMethod := some (if r.coin2 then "email" else "phone") }

/-- `PhoneTestPatterns.INVALID_PHONES`. -/
def invalidPhones : List String :=
  ["abc123", "123", "phone-number", "++44 20 7946 0958", ""]

namespace Legacy

/-! ## Legacy contact-form `FormActions` (the generation `form.spec.ts`
imports), with phone/message/company fields, role select, checkboxes,
radios, submit/reset buttons. -/

/-- Legacy `fillPhone`. -/
def fillPhone (phone : String) : Act := fillField "phoneInput" phone "phone"

/-- Legacy `fillMessage`. -/
def fillMessage (message : String) : Act :=
  fillField "messageTextarea" message "message"

/-- Legacy `fillCompany`. -/
def fillCompany (company : String) : Act :=
  fillField "companyInput" company "company"

/-- The steps legacy `selectRole` performs: visibility assertion,
`selectOption`, then `toHaveValue`. -/
def selectRoleSteps (role : String) : List PwStep :=
  [.assertVisible "roleSelect" 5000, .selectOption "roleSelect" role,
   .assertValue "roleSelect" role]

/-- Legacy `selectRole(role)` with its error wrapping. -/
def selectRole (role : String) : Act :=
  Act.tryCatch (Act.runList (selectRoleSteps role))
    (fun e => some ("Failed to select role \"" ++ role ++ "\": " ++ e))

/-- The steps legacy `setCheckbox` performs: visibility assertion,
`setChecked`, then the checked-state assertion matching the request. -/
def setCheckboxSteps (loc : String) (checked : Bool) : List PwStep :=
  [.assertVisible loc 5000, .setChecked loc checked,
   .assertChecked loc checked]

/-- Legacy `setCheckbox(locator, checked, fieldName)` with its error
wrapping. -/
def setCheckbox (loc : String) (checked : Bool) (fieldName : String) : Act :=
  Act.tryCatch (Act.runList (setCheckboxSteps loc checked))
    (fun e => some ("Failed to set " ++ fieldName ++ " checkbox to "
      ++ toString checked ++ ": " ++ e))

/-- Legacy `setAgreeToTerms`. -/
def setAgreeToTerms (checked : Bool) : Act :=
  setCheckbox "agreeCheckbox" checked "agreement"

/-- Legacy `setNewsletterSubscription`. -/
def setNewsletterSubscription (checked : Bool) : Act :=
  setCheckbox "newsletterCheckbox" checked "newsletter"

/-- The radio locator legacy `selectContactMethod` picks. -/
def radioFor (method : String) : String :=
  if method == "email" then "emailContactRadio" else "phoneContactRadio"

/-- The steps legacy `selectContactMethod` performs. -/
def selectContactMethodSteps (method : String) : List PwStep :=
  [.assertVisible (radioFor method) 5000, .check (radioFor method),
   .assertChecked (radioFor method) true]

/-- Legacy `selectContactMethod(method)` with its error wrapping. -/
def selectContactMethod (method : String) : Act :=
  Act.tryCatch (Act.runList (selectContactMethodSteps method))
    (fun e => some ("Failed to select contact method \"" ++ method
      ++ "\": " ++ e))

/-- The steps legacy `submitForm` performs (submit button). -/
def submitFormSteps : List PwStep :=
  [.assertVisible "submitButton" 5000, .assertEnabled "submitButton",
   .click "submitButton", .waitLoadState "networkidle" 10000]

/-- Legacy `submitForm()` with its error wrapping. -/
def submitForm : Act :=
  Act.tryCatch (Act.runList submitFormSteps)
    (fun e => some ("Failed to submit form: " ++ e))

/-- Legacy `fillCompleteForm(formData)`: fill the five text fields, the
role select, the two checkboxes and the contact-method radio, each guarded
as in the source (`if (x)` for strings, `if (x !== undefined)` for
booleans). -/
def fillCompleteForm (d : FormTestData) : Act :=
  Act.seq (optFill d.name fillName)
    (Act.seq (optFill d.email fillEmail)
      (Act.seq (optFill d.phone fillPhone)
        (Act.seq (optFill d.message fillMessage)
          (Act.seq (optFill d.company fillCompany)
            (Act.seq (optFill d.role selectRole)
              (Act.seq (optBool d.agreeToTerms setAgreeToTerms)
                (Act.seq (optBool d.subscribeNewsletter
                    setNewsletterSubscription)
                  (optFill d.contactMethod selectContactMethod))))))))

/-- Legacy `clearAllFields()`: for each of the five text fields, try
`clear()` and swallow any error, continuing with the next field. -/
def clearAllFields : Act :=
  Act.forEach ["nameInput", "emailInput", "phoneInput", "messageTextarea",
    "companyInput"]
    (fun f => Act.tryCatch (Act.step (.clear f)) (fun _ => none))

/-- Legacy `verifyFieldError('phone')`: the `field = 'phone'` branch of the
switch, with no expected message passed (as in the phone-format test). -/
def verifyFieldErrorPhone : Act :=
  Act.step (.assertVisible "phoneFieldError" 5000)

/-- Legacy `waitForFormToLoad()`: form-container visibility with a 10000 ms
timeout, then the loading-indicator hidden check whose failure is swallowed
by `.catch(() => {})`. -/
def waitForFormToLoad : Act :=
  Act.seq (Act.step (.assertVisible "formContainer" 10000))
    (Act.tryCatch (Act.step (.assertHidden "loadingIndicator")) (fun _ => none))

/-- Legacy `navigateToForm()`. -/
def navigateToForm : Act :=
  Act.seq (Act.step (.goto "/")) waitForFormToLoad

/-! ## The phone-number-format test of `form.spec.ts` -/

/-- Outcome of a Playwright test case. -/
inductive TestOutcome where
  | passed
  | skipped
  | failed (msg : String)
deriving DecidableEq, Repr

/-- One loop iteration of the phone-format test body: clear all fields,
fill the complete form with valid data whose phone is the invalid sample,
submit, verify the phone field error, navigate back to the form. -/
def phoneTestIteration (r : RandomEnv) (p : String) : Act :=
  Act.seq clearAllFields
    (Act.seq (fillCompleteForm { getValidFormData r with phone := some p })
      (Act.seq submitForm
        (Act.seq verifyFieldErrorPhone navigateToForm)))

/-- The try-block of the phone-format test: probe `phoneInput.isVisible()`
(result unused), then loop over the invalid phone samples. -/
def phoneTestBody (r : RandomEnv) : Act :=
  Act.seq (Act.step (.isVisibleProbe "phoneInput"))
    (Act.forEach invalidPhones (phoneTestIteration r))

/-- The test `should validate phone number format if phone field exists`:
its whole body is a try-block whose catch calls `test.skip()`. -/
def phoneFormatTest (r : RandomEnv) (env : Env) : TestOutcome :=
  match (phoneTestBody r env).1 with
  | none => .passed
  | some _ => .skipped

end Legacy

/-! ## DOM effect of a trace -/

/-- Observable form state: the value and checked state of each locator. -/
structure World where
  vals : String → String
  checked : String → Bool

/-- Effect of one primitive step on the form state: `clear` empties the
target's value, `fill`/`selectOption` set it, `setChecked` sets the target's
checked state, `check` checks it; assertions, probes, clicks and page-level
steps leave field state unchanged. -/
def applyStep (w : World) : PwStep → World
  | .clear t => { w with vals := fun x => if x = t then "" else w.vals x }
  | .fill t v => { w with vals := fun x => if x = t then v else w.vals x }
  | .selectOption t v =>
      { w with vals := fun x => if x = t then v else w.vals x }
  | .setChecked t b =>
      { w with checked := fun x => if x = t then b else w.checked x }
  | .check t =>
      { w with checked := fun x => if x = t then true else w.checked x }
  | _ => w

/-- Effect of a whole trace, applied in order. -/
def applyTrace (w : World) (tr : List PwStep) : World := tr.foldl applyStep w

theorem applyStep_preserve (w : World) (s : PwStep) (sel : String)
    (h : PwStep.target s ≠ sel) :
    (applyStep w s).vals sel = w.vals sel
      ∧ (applyStep w s).checked sel = w.checked sel := by
  cases s <;>
    simp_all [applyStep, PwStep.target] <;>
    intro hc <;> exact absurd hc.symm h

theorem applyTrace_preserve (tr : List PwStep) (w : World) (sel : String)
    (h : ∀ s ∈ tr, PwStep.target s ≠ sel) :
    (applyTrace w tr).vals sel = w.vals sel
      ∧ (applyTrace w tr).checked sel = w.checked sel := by
  induction tr generalizing w with
  | nil => exact ⟨rfl, rfl⟩
  | cons s rest ih =>
    have h1 := applyStep_preserve w s sel (h s (by simp))
    have h2 := ih (applyStep w s) (fun t ht => h t (by simp [ht]))
    simp only [applyTrace, List.foldl_cons] at *
    exact ⟨h2.1.trans h1.1, h2.2.trans h1.2⟩

/-! ## Fields of the legacy `fillCompleteForm` argument -/

/-- The nine fields of the legacy `fillCompleteForm` argument record. -/
inductive Field where
  | name | email | phone | message | company | role
  | agreeToTerms | subscribeNewsletter | contactMethod
deriving DecidableEq, Repr, Fintype

/-- Whether the source's guard for a field passes (JS truthiness for the
string fields, `!== undefined` for the boolean flags). -/
def Field.provided (d : FormTestData) : Field → Bool
  | .name => truthy d.name
  | .email => truthy d.email
  | .phone => truthy d.phone
  | .message => truthy d.message
  | .company => truthy d.company
  | .role => truthy d.role
  | .agreeToTerms => d.agreeToTerms.isSome
  | .subscribeNewsletter => d.subscribeNewsletter.isSome
  | .contactMethod => truthy d.contactMethod

/-- The locators the sub-action of each field can touch. -/
def Field.sels : Field → List String
  | .name => ["nameInput"]
  | .email => ["emailInput"]
  | .phone => ["phoneInput"]
  | .message => ["messageTextarea"]
  | .company => ["companyInput"]
  | .role => ["roleSelect"]
  | .agreeToTerms => ["agreeCheckbox"]
  | .subscribeNewsletter => ["newsletterCheckbox"]
  | .contactMethod => ["emailContactRadio", "phoneContactRadio"]

theorem sels_disjoint :
    ∀ f g : Field, f ≠ g → ∀ t ∈ Field.sels f, t ∉ Field.sels g := by decide

theorem optFill_trace_mem (v : Option String) (act : String → Act)
    (env : Env) (s : PwStep) (h : s ∈ (optFill v act env).2) :
    ∃ x, v = some x ∧ truthy v = true ∧ s ∈ (act x env).2 := by
  match v with
  | none => simp [optFill, Act.skip] at h
  | some x =>
    by_cases hx : x = ""
    · simp [optFill, hx, Act.skip] at h
    · refine ⟨x, rfl, by simp [truthy, hx], ?_⟩
      simpa [optFill, hx] using h

theorem optBool_trace_mem (v : Option Bool) (act : Bool → Act)
    (env : Env) (s : PwStep) (h : s ∈ (optBool v act env).2) :
    ∃ b, v = some b ∧ s ∈ (act b env).2 := by
  match v with
  | none => simp [optBool, Act.skip] at h
  | some b => exact ⟨b, rfl, by simpa [optBool] using h⟩

theorem fillField_trace_target (loc v n : String) (env : Env) (s : PwStep)
    (h : s ∈ (fillField loc v n env).2) : PwStep.target s = loc := by
  rw [fillField, tryCatch_snd] at h
  have := runList_trace_mem env _ s h
  simp [fillFieldSteps] at this
  rcases this with h | h | h | h <;> subst h <;> rfl

theorem selectRole_trace_target (role : String) (env : Env) (s : PwStep)
    (h : s ∈ (Legacy.selectRole role env).2) :
    PwStep.target s = "roleSelect" := by
  rw [Legacy.selectRole, tryCatch_snd] at h
  have := runList_trace_mem env _ s h
  simp [Legacy.selectRoleSteps] at this
  rcases this with h | h | h <;> subst h <;> rfl

theorem setCheckbox_trace_target (loc n : String) (b : Bool) (env : Env)
    (s : PwStep) (h : s ∈ (Legacy.setCheckbox loc b n env).2) :
    PwStep.target s = loc := by
  rw [Legacy.setCheckbox, tryCatch_snd] at h
  have := runList_trace_mem env _ s h
  simp [Legacy.setCheckboxSteps] at this
  rcases this with h | h | h <;> subst h <;> rfl

theorem selectContactMethod_trace_target (m : String) (env : Env)
    (s : PwStep) (h : s ∈ (Legacy.selectContactMethod m env).2) :
    PwStep.target s ∈ Field.sels .contactMethod := by
  rw [Legacy.selectContactMethod, tryCatch_snd] at h
  have := runList_trace_mem env _ s h
  simp [Legacy.selectContactMethodSteps] at this
  have hr : Legacy.radioFor m ∈ Field.sels Field.contactMethod := by
    by_cases hm : (m == "email") = true <;>
      simp [Legacy.radioFor, hm, Field.sels]
  rcases this with h | h | h <;> subst h <;> simpa [PwStep.target] using hr

/-- Every step in a legacy `fillCompleteForm` trace belongs to a field whose
guard passed and targets one of that field's locators. -/
theorem fillCompleteForm_trace_targets (d : FormTestData) (env : Env)
    (s : PwStep) (h : s ∈ (Legacy.fillCompleteForm d env).2) :
    ∃ f : Field, Field.provided d f = true ∧ PwStep.target s ∈ Field.sels f := by
  rw [Legacy.fillCompleteForm] at h
  rcases seq_trace_mem _ _ _ _ h with h | h
  · obtain ⟨x, hx, ht, hm⟩ := optFill_trace_mem _ _ _ _ h
    exact ⟨.name, ht, by
      simp [Field.sels, fillField_trace_target _ _ _ _ _ hm]⟩
  rcases seq_trace_mem _ _ _ _ h with h | h
  · obtain ⟨x, hx, ht, hm⟩ := optFill_trace_mem _ _ _ _ h
    exact ⟨.email, ht, by
      simp [Field.sels, fillField_trace_target _ _ _ _ _ hm]⟩
  rcases seq_trace_mem _ _ _ _ h with h | h
  · obtain ⟨x, hx, ht, hm⟩ := optFill_trace_mem _ _ _ _ h
    exact ⟨.phone, ht, by
      simp [Field.sels, fillField_trace_target _ _ _ _ _ hm]⟩
  rcases seq_trace_mem _ _ _ _ h with h | h
  · obtain ⟨x, hx, ht, hm⟩ := optFill_trace_mem _ _ _ _ h
    exact ⟨.message, ht, by
      simp [Field.sels, fillField_trace_target _ _ _ _ _ hm]⟩
  rcases seq_trace_mem _ _ _ _ h with h | h
  · obtain ⟨x, hx, ht, hm⟩ := optFill_trace_mem _ _ _ _ h
    exact ⟨.company, ht, by
      simp [Field.sels, fillField_trace_target _ _ _ _ _ hm]⟩
  rcases seq_trace_mem _ _ _ _ h with h | h
  · obtain ⟨x, hx, ht, hm⟩ := optFill_trace_mem _ _ _ _ h
    exact ⟨.role, ht, by
      simp [Field.sels, selectRole_trace_target _ _ _ hm]⟩
  rcases seq_trace_mem _ _ _ _ h with h | h
  · obtain ⟨b, hb, hm⟩ := optBool_trace_mem _ _ _ _ h
    exact ⟨.agreeToTerms, by simp [Field.provided, hb, Option.isSome], by
      simp [Field.sels,
        setCheckbox_trace_target _ _ _ _ _ hm]⟩
  rcases seq_trace_mem _ _ _ _ h with h | h
  · obtain ⟨b, hb, hm⟩ := optBool_trace_mem _ _ _ _ h
    exact ⟨.subscribeNewsletter, by simp [Field.provided, hb, Option.isSome], by
      simp [Field.sels,
        setCheckbox_trace_target _ _ _ _ _ hm]⟩
  · obtain ⟨x, hx, ht, hm⟩ := optFill_trace_mem _ _ _ _ h
    exact ⟨.contactMethod, ht,
      selectContactMethod_trace_target _ _ _ hm⟩

/-- The frame property of `fillCompleteForm` for one field: no step of the
run targets any of the field's locators, and the field's value and checked
state in the world are unchanged by the run. -/
def Untouched (f : Field) (res : ActResult) (w : World) : Prop :=
  (∀ s ∈ res.2, PwStep.target s ∉ Field.sels f)
    ∧ ∀ sel ∈ Field.sels f,
        (applyTrace w res.2).vals sel = w.vals sel
          ∧ (applyTrace w res.2).checked sel = w.checked sel

/-! ## Further helper lemmas -/

theorem firstErr_mem (env : Env) (L : List PwStep) (e : String)
    (h : firstErr env L = some e) : ∃ s ∈ L, env s = some e := by
  induction L with
  | nil => simp [firstErr] at h
  | cons a rest ih =>
    cases ha : env a with
    | some e2 =>
      simp [firstErr, ha] at h
      exact ⟨a, by simp, by rw [ha, h]⟩
    | none =>
      simp [firstErr, ha] at h
      obtain ⟨s, hmem, hs⟩ := ih h
      exact ⟨s, by simp [hmem], hs⟩

theorem wrapped_runList_fst (L : List PwStep) (w : String → String)
    (env : Env) :
    (Act.tryCatch (Act.runList L) (fun e => some (w e)) env).1
      = Option.map w (firstErr env L) := by
  rw [tryCatch_fst, runList_fst]
  cases firstErr env L <;> rfl

theorem wrapped_runList_ok_iff (L : List PwStep) (w : String → String)
    (env : Env) :
    (Act.tryCatch (Act.runList L) (fun e => some (w e)) env).1 = none
      ↔ ∀ s ∈ L, env s = none := by
  rw [wrapped_runList_fst, ← firstErr_eq_none env L]
  cases firstErr env L <;> simp

theorem wrapped_runList_err (L : List PwStep) (w : String → String)
    (env : Env) (e : String)
    (h : (Act.tryCatch (Act.runList L) (fun e => some (w e)) env).1 = some e) :
    ∃ raw, firstErr env L = some raw ∧ e = w raw := by
  rw [wrapped_runList_fst] at h
  cases hfe : firstErr env L with
  | none => rw [hfe] at h; simp at h
  | some raw => rw [hfe] at h; simp at h; exact ⟨raw, rfl, h.symm⟩

theorem wrapped_runList_trace_ok (L : List PwStep) (w : String → String)
    (env : Env) (h : ∀ s ∈ L, env s = none) :
    (Act.tryCatch (Act.runList L) (fun e => some (w e)) env).2 = L := by
  rw [tryCatch_snd]
  exact runList_trace_ok env L h

theorem tryCatch_swallow_step (s : PwStep) (env : Env) :
    Act.tryCatch (Act.step s) (fun _ => none) env = (none, [s]) := by
  cases h : env s <;> simp [Act.tryCatch, Act.step, h]

theorem wrapFillError_ne (n v e : String) : wrapFillError n v e ≠ e := by
  intro h
  have hlen := congrArg String.length h
  have hpos : 0 < ("Failed to fill ").length := by decide
  simp only [wrapFillError, String.length_append] at hlen
  omega

theorem optFill_not_provided (v : Option String) (act : String → Act)
    (env : Env) (h : truthy v = false) : (optFill v act env).2 = [] := by
  match v with
  | none => rfl
  | some x =>
    simp [truthy] at h
    simp [optFill, h, Act.skip]

/-- Whether a step asserts the resulting state of a control (its value or
its checked state), as opposed to visibility or enabledness. -/
def isStateAssert : PwStep → Bool
  | .assertValue _ _ => true
  | .assertChecked _ _ => true
  | _ => false

/-- Whether `sub` occurs as a contiguous substring of `msg` (character
lists). -/
def containsSub (msg sub : List Char) : Bool :=
  match msg with
  | [] => sub.isEmpty
  | _ :: rest => sub.isPrefixOf msg || containsSub rest sub

/-- Whether an error message mentions a given string at all. -/
def mentions (msg v : String) : Bool := containsSub msg.data v.data

/-! ## Concrete environments used by witnesses and counterexamples -/

/-- Environment in which every automation call succeeds. -/
def envAllOk : Env := fun _ => none

/-- Environment in which the name input never becomes visible. -/
def envFillTimeout : Env := fun s =>
  match s with
  | .assertVisible "nameInput" 5000 =>
      some "locator.toBeVisible: Timeout 5000ms exceeded"
  | _ => none

/-- Environment in which the country dropdown never becomes visible. -/
def envCountryTimeout : Env := fun s =>
  match s with
  | .assertVisible "countryDropdown" 5000 => some "Timeout 5000ms exceeded"
  | _ => none

/-- Environment in which clearing the name input fails. -/
def envNameClearFails : Env := fun s =>
  match s with
  | .clear "nameInput" => some "locator.clear: Timeout 5000ms exceeded"
  | _ => none

/-- Environment in which the register button click fails. -/
def envClickFails : Env := fun s =>
  match s with
  | .click "registerButton" => some "locator.click: element detached"
  | _ => none

/-- Environment modelling a form with no phone field: any wait for the
phone input to be visible times out. -/
def envPhoneAbsent : Env := fun s =>
  match s with
  | .assertVisible "phoneInput" 5000 =>
      some "locator.toBeVisible: Timeout 5000ms exceeded"
  | _ => none

/-- A fixed randomness/clock state. -/
def renv0 : RandomEnv := ⟨0, 0, false, false⟩

/-- A concrete form state. -/
def w0 : World := ⟨fun _ => "w", fun _ => false⟩

/-! ## Claims -/

/-- Claim C1: `fillField(locator, value, fieldName)` performs exactly, in
order, the visibility assertion with a 5000 ms timeout, `clear`, `fill`
with the value, and the value assertion; when every step succeeds it
returns normally, and on any failure of any step it raises a single wrapped
error (which differs from the delegate's error). -/
theorem claim_C1_fill_field (env : Env) (loc v n : String) :
    ((fillField loc v n env).1 = none
        ↔ ∀ s ∈ fillFieldSteps loc v, env s = none)
    ∧ ((∀ s ∈ fillFieldSteps loc v, env s = none) →
        (fillField loc v n env).2 = fillFieldSteps loc v)
    ∧ ∀ e, (fillField loc v n env).1 = some e →
        ∃ raw, firstErr env (fillFieldSteps loc v) = some raw
          ∧ e = wrapFillError n v raw ∧ e ≠ raw := by
  refine ⟨wrapped_runList_ok_iff _ _ env, wrapped_runList_trace_ok _ _ env, ?_⟩
  intro e he
  obtain ⟨raw, hraw, hw⟩ := wrapped_runList_err _ _ env e he
  exact ⟨raw, hraw, hw, hw ▸ wrapFillError_ne n v raw⟩

/-- Witness for C1 at concrete inputs: in the all-success environment the
trace is exactly the four steps, and when the visibility wait fails the
result is the wrapped error. -/
theorem claim_C1_fill_field_witness :
    (∀ s ∈ fillFieldSteps "nameInput" "John Doe", envAllOk s = none)
    ∧ (fillField "nameInput" "John Doe" "name" envAllOk).2
        = fillFieldSteps "nameInput" "John Doe"
    ∧ ∃ raw, firstErr envFillTimeout (fillFieldSteps "nameInput" "John Doe")
          = some raw
        ∧ (fillField "nameInput" "John Doe" "name" envFillTimeout).1
            = some (wrapFillError "name" "John Doe" raw) := by
  refine ⟨by decide, ?_, ?_⟩
  · exact (claim_C1_fill_field envAllOk "nameInput" "John Doe" "name").2.1
      (by decide)
  · obtain ⟨raw, hraw, hw, _⟩ :=
      (claim_C1_fill_field envFillTimeout "nameInput" "John Doe" "name").2.2
        (wrapFillError "name" "John Doe"
          "locator.toBeVisible: Timeout 5000ms exceeded") (by decide)
    exact ⟨raw, hraw, by rw [← hw]; decide⟩

/-- Claim C2 counterexample: `selectCountry` is an action method wrapping
locator interactions (click on the dropdown and option), yet when the
delegate fails its error is returned verbatim, not re-wrapped: the
resulting message names neither the field nor the attempted value. -/
theorem claim_C2_counterexample :
    envCountryTimeout (.assertVisible "countryDropdown" 5000)
        = some "Timeout 5000ms exceeded"
    ∧ (selectCountry "France" envCountryTimeout).1
        = some "Timeout 5000ms exceeded"
    ∧ mentions "Timeout 5000ms exceeded" "France" = false
    ∧ mentions "Timeout 5000ms exceeded" "country" = false := by decide

/-- Claim C2 (amended): the fill, checkbox-set, role-select and submit
action methods re-wrap any delegate failure in a descriptive message
(`fillField` naming the field and the attempted value), and every such
method as well as `selectCountry` begins with an inline visibility
assertion; `selectCountry`, however, propagates the delegate's error
unchanged. -/
theorem claim_C2_amended (env : Env) (loc v n role c : String) (b : Bool) :
    (∀ e, (fillField loc v n env).1 = some e →
        ∃ raw, e = wrapFillError n v raw)
    ∧ (∀ e, (submitForm env).1 = some e →
        ∃ raw, e = "Failed to submit form: " ++ raw)
    ∧ (∀ e, (Legacy.setCheckbox loc b n env).1 = some e →
        ∃ raw, e = "Failed to set " ++ n ++ " checkbox to "
          ++ toString b ++ ": " ++ raw)
    ∧ (∀ e, (Legacy.selectRole role env).1 = some e →
        ∃ raw, e = "Failed to select role \"" ++ role ++ "\": " ++ raw)
    ∧ (fillFieldSteps loc v).head? = some (.assertVisible loc 5000)
    ∧ (selectCountrySteps c).head?
        = some (.assertVisible "countryDropdown" 5000)
    ∧ submitFormSteps.head? = some (.assertVisible "registerButton" 5000)
    ∧ ((selectCountry c env).1 = none
        ∨ ∃ s ∈ selectCountrySteps c, (selectCountry c env).1 = env s) := by
  refine ⟨?_, ?_, ?_, ?_, rfl, rfl, rfl, ?_⟩
  · intro e he
    obtain ⟨raw, _, hw⟩ := wrapped_runList_err _ _ env e he
    exact ⟨raw, hw⟩
  · intro e he
    obtain ⟨raw, _, hw⟩ := wrapped_runList_err _ _ env e he
    exact ⟨raw, hw⟩
  · intro e he
    obtain ⟨raw, _, hw⟩ := wrapped_runList_err _ _ env e he
    exact ⟨raw, hw⟩
  · intro e he
    obtain ⟨raw, _, hw⟩ := wrapped_runList_err _ _ env e he
    exact ⟨raw, hw⟩
  · rw [selectCountry, runList_fst]
    cases hfe : firstErr env (selectCountrySteps c) with
    | none => exact Or.inl rfl
    | some e =>
      obtain ⟨s, hmem, hs⟩ := firstErr_mem env _ e hfe
      exact Or.inr ⟨s, hmem, hs.symm⟩

/-- Witness for C2 (amended) at concrete inputs. -/
theorem claim_C2_amended_witness :
    (fillField "nameInput" "Ana" "name" envFillTimeout).1
        = some (wrapFillError "name" "Ana"
            "locator.toBeVisible: Timeout 5000ms exceeded")
    ∧ ∃ raw, wrapFillError "name" "Ana"
          "locator.toBeVisible: Timeout 5000ms exceeded"
        = wrapFillError "name" "Ana" raw := by
  refine ⟨by decide, ?_⟩
  exact (claim_C2_amended envFillTimeout "nameInput" "Ana" "name" "x" "F"
      true).1
    (wrapFillError "name" "Ana" "locator.toBeVisible: Timeout 5000ms exceeded")
    (by decide)

/-- Claim C3 counterexample: `selectCountry` is a selection action, yet
neither its step list nor its successful trace contains any
resulting-state assertion — after clicking the option it returns without
verifying the selection. -/
theorem claim_C3_counterexample :
    (selectCountrySteps "France").filter isStateAssert = []
    ∧ (selectCountry "France" envAllOk).1 = none
    ∧ (selectCountry "France" envAllOk).2.filter isStateAssert = [] := by
  decide

/-- Claim C3 (amended): the checkbox, role-select and contact-method
actions follow locate → set state → assert resulting state — on success
the final resulting-state assertion was performed and passed — but
`selectCountry` clicks the dropdown and option without ever asserting the
resulting selection. -/
theorem claim_C3_amended (env : Env) (loc n role m c : String) (b : Bool) :
    ((Legacy.setCheckbox loc b n env).1 = none →
        env (.assertChecked loc b) = none
          ∧ (Legacy.setCheckbox loc b n env).2 = Legacy.setCheckboxSteps loc b
          ∧ (Legacy.setCheckboxSteps loc b).getLast?
              = some (.assertChecked loc b))
    ∧ ((Legacy.selectRole role env).1 = none →
        env (.assertValue "roleSelect" role) = none
          ∧ (Legacy.selectRoleSteps role).getLast?
              = some (.assertValue "roleSelect" role))
    ∧ ((Legacy.selectContactMethod m env).1 = none →
        env (.assertChecked (Legacy.radioFor m) true) = none)
    ∧ (∀ s ∈ (selectCountry c env).2, isStateAssert s = false) := by
  refine ⟨?_, ?_, ?_, ?_⟩
  · intro h
    have hall := (wrapped_runList_ok_iff _ _ env).mp h
    exact ⟨hall _ (by simp [Legacy.setCheckboxSteps]),
      wrapped_runList_trace_ok _ _ env hall, rfl⟩
  · intro h
    have hall := (wrapped_runList_ok_iff _ _ env).mp h
    exact ⟨hall _ (by simp [Legacy.selectRoleSteps]), rfl⟩
  · intro h
    have hall := (wrapped_runList_ok_iff _ _ env).mp h
    exact hall _ (by simp [Legacy.selectContactMethodSteps])
  · intro s hs
    have := runList_trace_mem env _ s hs
    simp [selectCountrySteps] at this
    rcases this with h | h | h <;> subst h <;> rfl

/-- Witness for C3 (amended) at concrete inputs. -/
theorem claim_C3_amended_witness :
    (Legacy.setCheckbox "agreeCheckbox" true "agreement" envAllOk).1 = none
    ∧ envAllOk (.assertChecked "agreeCheckbox" true) = none := by
  refine ⟨by decide, ?_⟩
  exact ((claim_C3_amended envAllOk "agreeCheckbox" "agreement" "developer"
      "email" "France" true).1 (by decide)).1

/-- Claim C4 counterexample: `clearAllFields` swallows a failure of the
name field's `clear()` and continues with the email field, returning
normally — a failure inside an action helper that does not propagate. -/
theorem claim_C4_counterexample :
    envNameClearFails (.clear "nameInput")
        = some "locator.clear: Timeout 5000ms exceeded"
    ∧ (clearAllFields envNameClearFails).1 = none
    ∧ (clearAllFields envNameClearFails).2
        = [.clear "nameInput", .clear "emailInput"] := by decide

/-- Claim C4 (amended): `fillField`, `selectCountry` and `submitForm`
propagate every delegate failure to the caller (they fail exactly when a
step fails), but `clearAllFields` is the exception: it catches each
field's `clear()` failure and continues with the remaining fields, always
returning normally and always attempting every field. -/
theorem claim_C4_amended (env : Env) (loc v n c : String) :
    ((clearAllFields env).1 = none
      ∧ (clearAllFields env).2 = [.clear "nameInput", .clear "emailInput"])
    ∧ ((fillField loc v n env).1 = none
        ↔ firstErr env (fillFieldSteps loc v) = none)
    ∧ ((selectCountry c env).1 = firstErr env (selectCountrySteps c))
    ∧ ((submitForm env).1 = none ↔ firstErr env submitFormSteps = none) := by
  have e1 := tryCatch_swallow_step (.clear "nameInput") env
  have e2 := tryCatch_swallow_step (.clear "emailInput") env
  refine ⟨?_, ?_, runList_fst env _, ?_⟩
  · constructor <;>
      simp [clearAllFields, Act.forEach, Act.seq, Act.skip, e1, e2]
  · exact (wrapped_runList_ok_iff _ _ env).trans
      (firstErr_eq_none env _).symm
  · exact (wrapped_runList_ok_iff _ _ env).trans
      (firstErr_eq_none env _).symm

/-- Witness for C4 (amended) at a concrete environment in which the name
clear fails. -/
theorem claim_C4_amended_witness :
    (clearAllFields envNameClearFails).1 = none
    ∧ (clearAllFields envNameClearFails).2
        = [.clear "nameInput", .clear "emailInput"] :=
  (claim_C4_amended envNameClearFails "nameInput" "Ana" "name" "F").1

/-- Claim C5: `submitForm` performs exactly the register-button visibility
assertion (5000 ms timeout), the enabled assertion, the click, and the
network-idle load-state wait with a fixed 10000 ms timeout, in that order;
any failure is re-thrown as a wrapped error whose message begins with
`Failed to submit form`. -/
theorem claim_C5_submit_form (env : Env) :
    submitFormSteps = [.assertVisible "registerButton" 5000,
      .assertEnabled "registerButton", .click "registerButton",
      .waitLoadState "networkidle" 10000]
    ∧ ((submitForm env).1 = none ↔ ∀ s ∈ submitFormSteps, env s = none)
    ∧ ((∀ s ∈ submitFormSteps, env s = none) →
        (submitForm env).2 = submitFormSteps)
    ∧ ∀ e, (submitForm env).1 = some e →
        ∃ raw, firstErr env submitFormSteps = some raw
          ∧ e = "Failed to submit form: " ++ raw := by
  refine ⟨rfl, wrapped_runList_ok_iff _ _ env,
    wrapped_runList_trace_ok _ _ env, ?_⟩
  intro e he
  obtain ⟨raw, hraw, hw⟩ := wrapped_runList_err _ _ env e he
  exact ⟨raw, hraw, hw⟩

/-- Witness for C5 at concrete environments: all-success run and a failing
click. -/
theorem claim_C5_submit_form_witness :
    (∀ s ∈ submitFormSteps, envAllOk s = none)
    ∧ (submitForm envAllOk).2 = submitFormSteps
    ∧ ∃ raw, firstErr envClickFails submitFormSteps = some raw
        ∧ "Failed to submit form: " ++ "locator.click: element detached"
            = "Failed to submit form: " ++ raw := by
  refine ⟨by decide, ?_, ?_⟩
  · exact (claim_C5_submit_form envAllOk).2.2.1 (by decide)
  · exact (claim_C5_submit_form envClickFails).2.2.2
      ("Failed to submit form: " ++ "locator.click: element detached")
      (by decide)

/-- Claim C6 counterexample: the claim that every per-field and
per-message locator carries a fallback selector list fails — the name
input locator is a single role query with one selector and no fallback. -/
theorem claim_C6_counterexample :
    ¬ (∀ q ∈ fieldMessageQueries, 2 ≤ q.fallbackCount)
    ∧ nameInputQuery ∈ fieldMessageQueries
    ∧ nameInputQuery.fallbackCount = 1 := by decide

/-- Claim C6 (amended): in the current `FormLocators` only the form
container locator carries a fallback selector list (four alternatives);
every per-field and per-message locator resolves through exactly one
selector (a role, text, or single CSS query) with no fallback. -/
theorem claim_C6_amended :
    formContainerQuery.fallbackCount = 4
    ∧ ∀ q ∈ fieldMessageQueries, q.fallbackCount = 1 := by decide

/-- Witness for C6 (amended) at the name-input query. -/
theorem claim_C6_amended_witness :
    nameInputQuery ∈ fieldMessageQueries
    ∧ nameInputQuery.fallbackCount = 1 :=
  ⟨by decide, claim_C6_amended.2 nameInputQuery (by decide)⟩

/-- Claim C7: `FormLocators` stores only the page reference (two instances
with equal pages are equal), every locator access is a function of that
page alone, each built locator carries exactly the stored page, and the
`FormActions` constructor stores the page and a `FormLocators` of the same
page; nothing mutates these fields after construction (all operations of
the embedding are functions of the construction-time page). -/
theorem claim_C7_stateless (fl fl' : FormLocators) (h : fl.page = fl'.page)
    (p : Page) :
    fl = fl'
    ∧ fl.allLocators = fl'.allLocators
    ∧ (∀ l ∈ fl.allLocators, l.page = fl.page)
    ∧ (FormActions.create p).page = p
    ∧ (FormActions.create p).locators = FormLocators.mk p := by
  cases fl
  cases fl'
  cases h
  refine ⟨rfl, rfl, ?_, rfl, rfl⟩
  intro l hl
  simp [FormLocators.allLocators, FormLocators.formContainer,
    FormLocators.formTitle, FormLocators.nameInput, FormLocators.emailInput,
    FormLocators.countryDropdown, FormLocators.countryOption,
    FormLocators.countryField, FormLocators.registerButton,
    FormLocators.nameErrorMessage, FormLocators.emailErrorMessage,
    FormLocators.countryErrorMessage, FormLocators.successMessage] at hl
  rcases hl with h | h | h | h | h | h | h | h | h | h | h | h <;>
    subst h <;> rfl

/-- Witness for C7 at concrete pages. -/
theorem claim_C7_stateless_witness :
    (FormLocators.mk ⟨0⟩ : FormLocators) = FormLocators.mk ⟨0⟩
    ∧ (FormActions.create ⟨1⟩).page = ⟨1⟩ :=
  ⟨(claim_C7_stateless ⟨⟨0⟩⟩ ⟨⟨0⟩⟩ rfl ⟨1⟩).1,
    (claim_C7_stateless ⟨⟨0⟩⟩ ⟨⟨0⟩⟩ rfl ⟨1⟩).2.2.2.1⟩

/-- Claim C8 counterexample: two calls of `getRandomValidData` need not
return equal records — at two ambient states differing only in the clock,
the generated emails differ, so the claim that every generator (including
the randomized ones) returns fixed equal records on every call is false. -/
theorem claim_C8_counterexample :
    getRandomValidData ⟨0, 1000, false, false⟩
      ≠ getRandomValidData ⟨0, 1001, false, false⟩ := by decide

/-- Claim C8 (amended): the static test data generators are constant —
two calls return equal, fixed literal records — and even
`getRandomValidData` fixes its phone and agreement fields as literals, but
`getRandomValidData` computes the remaining fields from the clock and the
random draws, so two of its calls need not return equal records. -/
theorem claim_C8_amended (r r' : RandomEnv) :
    getValidFormData r = getValidFormData r'
    ∧ getMinimalFormData r = getMinimalFormData r'
    ∧ getInvalidEmailData r = getInvalidEmailData r'
    ∧ getInvalidPhoneData r = getInvalidPhoneData r'
    ∧ getDataWithoutAgreement r = getDataWithoutAgreement r'
    ∧ getEmptyFormData r = getEmptyFormData r'
    ∧ (getRandomValidData r).phone = some "+44 20 7946 0958"
    ∧ (getRandomValidData r).agreeToTerms = some true
    ∧ ¬ (∀ a b : RandomEnv, getRandomValidData a = getRandomValidData b) := by
  refine ⟨rfl, rfl, rfl, rfl, rfl, rfl, rfl, rfl, ?_⟩
  intro hall
  exact absurd (hall ⟨0, 1000, false, false⟩ ⟨0, 1001, false, false⟩)
    (by decide)

/-- Witness for C8 (amended) at concrete ambient states. -/
theorem claim_C8_amended_witness :
    getValidFormData ⟨0, 5, true, true⟩ = getValidFormData ⟨1, 77, false, true⟩ :=
  (claim_C8_amended ⟨0, 5, true, true⟩ ⟨1, 77, false, true⟩).1

/-- Claim C9: the phone-number-format test can only pass or skip — its
whole body sits in a try-block whose catch calls `test.skip()` — so the
skip branch is taken whenever probing or using the phone field raises an
error, and in particular an absent phone field yields a skip rather than a
failure. -/
theorem claim_C9_phone_skip (r : RandomEnv) (env : Env) :
    ((Legacy.phoneTestBody r env).1.isSome →
        Legacy.phoneFormatTest r env = .skipped)
    ∧ (∀ m, Legacy.phoneFormatTest r env ≠ .failed m)
    ∧ ((Legacy.phoneTestBody r env).1 = none →
        Legacy.phoneFormatTest r env = .passed) := by
  cases hb : (Legacy.phoneTestBody r env).1 <;>
    simp [Legacy.phoneFormatTest, hb]

/-- Witness for C9: with the phone field absent (its visibility wait times
out inside `fillPhone`), the body raises and the test skips. -/
theorem claim_C9_phone_skip_witness :
    (Legacy.phoneTestBody renv0 envPhoneAbsent).1.isSome = true
    ∧ Legacy.phoneFormatTest renv0 envPhoneAbsent
        = Legacy.TestOutcome.skipped :=
  ⟨by decide, (claim_C9_phone_skip renv0 envPhoneAbsent).1 (by decide)⟩

/-- Claim C10: `fillCompleteForm` touches only the provided fields — for
any field whose guard fails (string fields that are `undefined` or empty,
boolean flags that are `undefined`), no step of the run targets that
field's locators and the field's value and checked state are unchanged; in
particular the current three-field `fillCompleteForm` with a falsy name
performs no interaction with the name input. -/
theorem claim_C10_frame (d : FormTestData) (env : Env) (f : Field)
    (w : World) (h : Field.provided d f = false) (d3 : FormData3)
    (h3 : truthy d3.name = false) :
    Untouched f (Legacy.fillCompleteForm d env) w
    ∧ ∀ s ∈ (fillCompleteForm d3 env).2, PwStep.target s ≠ "nameInput" := by
  have hnotin : ∀ s ∈ (Legacy.fillCompleteForm d env).2,
      PwStep.target s ∉ Field.sels f := by
    intro s hs hmem
    obtain ⟨g, hg, ht⟩ := fillCompleteForm_trace_targets d env s hs
    have hne : g ≠ f := by
      intro he
      rw [he, h] at hg
      cases hg
    exact sels_disjoint g f hne _ ht hmem
  refine ⟨⟨hnotin, ?_⟩, ?_⟩
  · intro sel hsel
    exact applyTrace_preserve _ w sel
      (fun s hs hts => hnotin s hs (hts ▸ hsel))
  · intro s hs
    rw [fillCompleteForm] at hs
    rcases seq_trace_mem _ _ _ _ hs with hm | hm
    · rw [optFill_not_provided d3.name fillName env h3] at hm
      cases hm
    rcases seq_trace_mem _ _ _ _ hm with hm | hm
    · obtain ⟨x, _, _, hmem⟩ := optFill_trace_mem _ _ _ _ hm
      rw [fillField_trace_target _ _ _ _ _ hmem]
      decide
    · obtain ⟨x, _, _, hmem⟩ := optFill_trace_mem _ _ _ _ hm
      have := runList_trace_mem env _ s hmem
      simp [selectCountrySteps] at this
      rcases this with hc | hc | hc <;> subst hc <;>
        simp only [PwStep.target] <;> decide

/-- Witness for C10: with `name` passed as the empty string, the legacy
form fill leaves the name input untouched in a concrete world, and the
current form fill's trace never targets the name input. -/
theorem claim_C10_frame_witness :
    Field.provided ({ name := some "" } : FormTestData) Field.name = false
    ∧ truthy (some "") = false
    ∧ Untouched Field.name
        (Legacy.fillCompleteForm { name := some "" } envAllOk) w0 := by
  refine ⟨by decide, by decide, ?_⟩
  exact (claim_C10_frame { name := some "" } envAllOk Field.name w0
      (by decide) ⟨some "", none, none⟩ (by decide)).1

end FadePlaywright
